import Mathlib

/-!
Verification of the ShadowGL 4x4 matrix library, mesh update logic, and the
multi-engine loader of this repository, against its natural-language
specification.  Floating-point numbers are modelled as real numbers; a
`Float32Array(16)` is modelled as a record of 16 reals.  Each operation of the
source mutates a caller-supplied `out` array and returns it; here every
operation takes the prior contents of `out` and produces the final contents,
so partial writes (operations that only touch some indices) are visible as
record updates `{ out with ... }`.
-/

set_option maxHeartbeats 1600000

noncomputable section MatrixLibrary

/-- A 4x4 matrix: the contents of a `Float32Array(16)`.  Field `mK` is the
array element at index `K`. -/
@[ext]
structure Mat where
  m0 : ℝ
  m1 : ℝ
  m2 : ℝ
  m3 : ℝ
  m4 : ℝ
  m5 : ℝ
  m6 : ℝ
  m7 : ℝ
  m8 : ℝ
  m9 : ℝ
  m10 : ℝ
  m11 : ℝ
  m12 : ℝ
  m13 : ℝ
  m14 : ℝ
  m15 : ℝ

/-- Array indexing `m[i]` for `i < 16`, mapping index `K` to field `mK`. -/
def Mat.get (m : Mat) (i : Fin 16) : ℝ :=
  match i.val with
  | 0 => m.m0
  | 1 => m.m1
  | 2 => m.m2
  | 3 => m.m3
  | 4 => m.m4
  | 5 => m.m5
  | 6 => m.m6
  | 7 => m.m7
  | 8 => m.m8
  | 9 => m.m9
  | 10 => m.m10
  | 11 => m.m11
  | 12 => m.m12
  | 13 => m.m13
  | 14 => m.m14
  | _ => m.m15

/-- A 3-component vector `v` with `v[0]`, `v[1]`, `v[2]`. -/
structure Vec3 where
  v0 : ℝ
  v1 : ℝ
  v2 : ℝ

namespace mat4

/-- `mat4.create()`: a fresh `Float32Array(16)` is zero-initialized, then
indices 0, 5, 10, 15 are set to 1. -/
def create : Mat :=
  ⟨1, 0, 0, 0,
   0, 1, 0, 0,
   0, 0, 1, 0,
   0, 0, 0, 1⟩

/-- `mat4.copy(out, a)`: `out.set(a)` overwrites all 16 elements of `out`
with the elements of `a` and returns `out`. -/
def copy (_out a : Mat) : Mat := a

/-- `mat4.perspective(out, fov, aspect, near, far)` from the source: all 16
elements of `out` are assigned. -/
def perspective (_out : Mat) (fov aspect near far : ℝ) : Mat :=
  let f : ℝ := 1 / Real.tan (fov / 2)
  let nf : ℝ := 1 / (near - far)
  ⟨f / aspect, 0, 0, 0,
   0, f, 0, 0,
   0, 0, (far + near) * nf, -1,
   0, 0, (2 * far * near) * nf, 0⟩

/-- `mat4.ortho(out, left, right, bottom, top, near, far)` from the source:
only indices 0, 5, 10, 12, 13, 14, 15 of `out` are assigned. -/
def ortho (out : Mat) (left right bottom top near far : ℝ) : Mat :=
  let lr : ℝ := 1 / (left - right)
  let bt : ℝ := 1 / (bottom - top)
  let nf : ℝ := 1 / (near - far)
  { out with
    m0 := -2 * lr
    m5 := -2 * bt
    m10 := 2 * nf
    m12 := (left + right) * lr
    m13 := (top + bottom) * bt
    m14 := (far + near) * nf
    m15 := 1 }

/-- `mat4.multiply(out, a, b)` from the source: all 16 elements of `out` are
assigned.  `aIJ` in the source is `a[4*I+J]`, likewise `bIJ`. -/
def multiply (_out a b : Mat) : Mat :=
  ⟨a.m0 * b.m0 + a.m1 * b.m4 + a.m2 * b.m8 + a.m3 * b.m12,
   a.m0 * b.m1 + a.m1 * b.m5 + a.m2 * b.m9 + a.m3 * b.m13,
   a.m0 * b.m2 + a.m1 * b.m6 + a.m2 * b.m10 + a.m3 * b.m14,
   a.m0 * b.m3 + a.m1 * b.m7 + a.m2 * b.m11 + a.m3 * b.m15,
   a.m4 * b.m0 + a.m5 * b.m4 + a.m6 * b.m8 + a.m7 * b.m12,
   a.m4 * b.m1 + a.m5 * b.m5 + a.m6 * b.m9 + a.m7 * b.m13,
   a.m4 * b.m2 + a.m5 * b.m6 + a.m6 * b.m10 + a.m7 * b.m14,
   a.m4 * b.m3 + a.m5 * b.m7 + a.m6 * b.m11 + a.m7 * b.m15,
   a.m8 * b.m0 + a.m9 * b.m4 + a.m10 * b.m8 + a.m11 * b.m12,
   a.m8 * b.m1 + a.m9 * b.m5 + a.m10 * b.m9 + a.m11 * b.m13,
   a.m8 * b.m2 + a.m9 * b.m6 + a.m10 * b.m10 + a.m11 * b.m14,
   a.m8 * b.m3 + a.m9 * b.m7 + a.m10 * b.m11 + a.m11 * b.m15,
   a.m12 * b.m0 + a.m13 * b.m4 + a.m14 * b.m8 + a.m15 * b.m12,
   a.m12 * b.m1 + a.m13 * b.m5 + a.m14 * b.m9 + a.m15 * b.m13,
   a.m12 * b.m2 + a.m13 * b.m6 + a.m14 * b.m10 + a.m15 * b.m14,
   a.m12 * b.m3 + a.m13 * b.m7 + a.m14 * b.m11 + a.m15 * b.m15⟩

/-- `mat4.translate(out, a, v)` from the source: only indices 12..15 of `out`
are assigned. -/
def translate (out a : Mat) (v : Vec3) : Mat :=
  { out with
    m12 := a.m0 * v.v0 + a.m4 * v.v1 + a.m8 * v.v2 + a.m12
    m13 := a.m1 * v.v0 + a.m5 * v.v1 + a.m9 * v.v2 + a.m13
    m14 := a.m2 * v.v0 + a.m6 * v.v1 + a.m10 * v.v2 + a.m14
    m15 := a.m3 * v.v0 + a.m7 * v.v1 + a.m11 * v.v2 + a.m15 }

/-- `mat4.scale(out, a, v)` from the source: only indices 0..11 of `out` are
assigned. -/
def scale (out a : Mat) (v : Vec3) : Mat :=
  { out with
    m0 := a.m0 * v.v0
    m1 := a.m1 * v.v0
    m2 := a.m2 * v.v0
    m3 := a.m3 * v.v0
    m4 := a.m4 * v.v1
    m5 := a.m5 * v.v1
    m6 := a.m6 * v.v1
    m7 := a.m7 * v.v1
    m8 := a.m8 * v.v2
    m9 := a.m9 * v.v2
    m10 := a.m10 * v.v2
    m11 := a.m11 * v.v2 }

/-- `mat4.rotateX(out, a, rad)` from the source: only indices 4..11 of `out`
are assigned. -/
def rotateX (out a : Mat) (rad : ℝ) : Mat :=
  let s : ℝ := Real.sin rad
  let c : ℝ := Real.cos rad
  { out with
    m4 := a.m4 * c + a.m8 * s
    m5 := a.m5 * c + a.m9 * s
    m6 := a.m6 * c + a.m10 * s
    m7 := a.m7 * c + a.m11 * s
    m8 := a.m8 * c - a.m4 * s
    m9 := a.m9 * c - a.m5 * s
    m10 := a.m10 * c - a.m6 * s
    m11 := a.m11 * c - a.m7 * s }

/-- `mat4.rotateY(out, a, rad)` from the source: only indices 0..3 and 8..11
of `out` are assigned. -/
def rotateY (out a : Mat) (rad : ℝ) : Mat :=
  let s : ℝ := Real.sin rad
  let c : ℝ := Real.cos rad
  { out with
    m0 := a.m0 * c - a.m8 * s
    m1 := a.m1 * c - a.m9 * s
    m2 := a.m2 * c - a.m10 * s
    m3 := a.m3 * c - a.m11 * s
    m8 := a.m0 * s + a.m8 * c
    m9 := a.m1 * s + a.m9 * c
    m10 := a.m2 * s + a.m10 * c
    m11 := a.m3 * s + a.m11 * c }

/-- `mat4.rotateZ(out, a, rad)` from the source: only indices 0..7 of `out`
are assigned. -/
def rotateZ (out a : Mat) (rad : ℝ) : Mat :=
  let s : ℝ := Real.sin rad
  let c : ℝ := Real.cos rad
  { out with
    m0 := a.m0 * c + a.m4 * s
    m1 := a.m1 * c + a.m5 * s
    m2 := a.m2 * c + a.m6 * s
    m3 := a.m3 * c + a.m7 * s
    m4 := a.m4 * c - a.m0 * s
    m5 := a.m5 * c - a.m1 * s
    m6 := a.m6 * c - a.m2 * s
    m7 := a.m7 * c - a.m3 * s }

/-- The determinant computed inside `mat4.invert(out, a)` (the `det` local
of the source, expanded from the `b00..b11` locals). -/
def det (a : Mat) : ℝ :=
  let b00 : ℝ := a.m0 * a.m5 - a.m1 * a.m4
  let b01 : ℝ := a.m0 * a.m6 - a.m2 * a.m4
  let b02 : ℝ := a.m0 * a.m7 - a.m3 * a.m4
  let b03 : ℝ := a.m1 * a.m6 - a.m2 * a.m5
  let b04 : ℝ := a.m1 * a.m7 - a.m3 * a.m5
  let b05 : ℝ := a.m2 * a.m7 - a.m3 * a.m6
  let b06 : ℝ := a.m8 * a.m13 - a.m9 * a.m12
  let b07 : ℝ := a.m8 * a.m14 - a.m10 * a.m12
  let b08 : ℝ := a.m8 * a.m15 - a.m11 * a.m12
  let b09 : ℝ := a.m9 * a.m14 - a.m10 * a.m13
  let b10 : ℝ := a.m9 * a.m15 - a.m11 * a.m13
  let b11 : ℝ := a.m10 * a.m15 - a.m11 * a.m14
  b00 * b11 - b01 * b10 + b02 * b09 + b03 * b08 - b04 * b07 + b05 * b06

/-- The 16 elements `mat4.invert` writes into `out` when the determinant is
nonzero (the `o[0]..o[15]` assignments of the source). -/
def invertVals (a : Mat) : Mat :=
  let b00 : ℝ := a.m0 * a.m5 - a.m1 * a.m4
  let b01 : ℝ := a.m0 * a.m6 - a.m2 * a.m4
  let b02 : ℝ := a.m0 * a.m7 - a.m3 * a.m4
  let b03 : ℝ := a.m1 * a.m6 - a.m2 * a.m5
  let b04 : ℝ := a.m1 * a.m7 - a.m3 * a.m5
  let b05 : ℝ := a.m2 * a.m7 - a.m3 * a.m6
  let b06 : ℝ := a.m8 * a.m13 - a.m9 * a.m12
  let b07 : ℝ := a.m8 * a.m14 - a.m10 * a.m12
  let b08 : ℝ := a.m8 * a.m15 - a.m11 * a.m12
  let b09 : ℝ := a.m9 * a.m14 - a.m10 * a.m13
  let b10 : ℝ := a.m9 * a.m15 - a.m11 * a.m13
  let b11 : ℝ := a.m10 * a.m15 - a.m11 * a.m14
  let invDet : ℝ := 1 / det a
  ⟨(a.m5 * b11 - a.m6 * b10 + a.m7 * b09) * invDet,
   (-a.m1 * b11 + a.m2 * b10 - a.m3 * b09) * invDet,
   (a.m13 * b05 - a.m14 * b04 + a.m15 * b03) * invDet,
   (-a.m9 * b05 + a.m10 * b04 - a.m11 * b03) * invDet,
   (-a.m4 * b11 + a.m6 * b08 - a.m7 * b07) * invDet,
   (a.m0 * b11 - a.m2 * b08 + a.m3 * b07) * invDet,
   (-a.m12 * b05 + a.m14 * b02 - a.m15 * b01) * invDet,
   (a.m8 * b05 - a.m10 * b02 + a.m11 * b01) * invDet,
   (a.m4 * b10 - a.m5 * b08 + a.m7 * b06) * invDet,
   (-a.m0 * b10 + a.m1 * b08 - a.m3 * b06) * invDet,
   (a.m12 * b04 - a.m13 * b02 + a.m15 * b00) * invDet,
   (-a.m8 * b04 + a.m9 * b02 - a.m11 * b00) * invDet,
   (-a.m4 * b09 + a.m5 * b07 - a.m6 * b06) * invDet,
   (a.m0 * b09 - a.m1 * b07 + a.m2 * b06) * invDet,
   (-a.m12 * b03 + a.m13 * b01 - a.m14 * b00) * invDet,
   (a.m8 * b03 - a.m9 * b01 + a.m10 * b00) * invDet⟩

/-- `mat4.invert(out, a)`: if the determinant is zero (`!det` in the source)
it returns `null` before writing anything into `out`; otherwise it assigns
all 16 elements of `out` and returns `out`.  The `null` sentinel is `none`. -/
def invert (_out a : Mat) : Option Mat :=
  if det a = 0 then none else some (invertVals a)

end mat4

/-- `Math.hypot(x, y, z)`: the square root of the sum of squares. -/
def hyp3 (x y z : ℝ) : ℝ := Real.sqrt (x * x + y * y + z * z)

namespace mat4

/-- `mat4.lookAt(out, eye, center, up)` from the source: all 16 elements of
`out` are assigned.  `zrI`/`xrI` are the raw (pre-normalization) axis
components; when a length is exactly zero the source skips the division and
substitutes the default component (`z2 = 1` resp. `x0 = 1`) instead. -/
def lookAt (_out : Mat) (eye center up : Vec3) : Mat :=
  let zr0 : ℝ := eye.v0 - center.v0
  let zr1 : ℝ := eye.v1 - center.v1
  let zr2 : ℝ := eye.v2 - center.v2
  let lenz : ℝ := hyp3 zr0 zr1 zr2
  let zv : ℝ × ℝ × ℝ :=
    if lenz = 0 then (zr0, zr1, 1) else (zr0 / lenz, zr1 / lenz, zr2 / lenz)
  let xr0 : ℝ := up.v1 * zv.2.2 - up.v2 * zv.2.1
  let xr1 : ℝ := up.v2 * zv.1 - up.v0 * zv.2.2
  let xr2 : ℝ := up.v0 * zv.2.1 - up.v1 * zv.1
  let lenx : ℝ := hyp3 xr0 xr1 xr2
  let xv : ℝ × ℝ × ℝ :=
    if lenx = 0 then (1, xr1, xr2) else (xr0 / lenx, xr1 / lenx, xr2 / lenx)
  let y0 : ℝ := zv.2.1 * xv.2.2 - zv.2.2 * xv.2.1
  let y1 : ℝ := zv.2.2 * xv.1 - zv.1 * xv.2.2
  let y2 : ℝ := zv.1 * xv.2.1 - zv.2.1 * xv.1
  ⟨xv.1, y0, zv.1, 0,
   xv.2.1, y1, zv.2.1, 0,
   xv.2.2, y2, zv.2.2, 0,
   -(xv.1 * eye.v0 + xv.2.1 * eye.v1 + xv.2.2 * eye.v2),
   -(y0 * eye.v0 + y1 * eye.v1 + y2 * eye.v2),
   -(zv.1 * eye.v0 + zv.2.1 * eye.v1 + zv.2.2 * eye.v2),
   1⟩

/-- Division instrumented for NaN tracking: over the reals, the divisions of
`lookAt` are the only places a NaN could be produced from finite inputs
(`0 / 0`), so a division by zero is modelled as `none` (NaN). -/
def checkedDiv (a b : ℝ) : Option ℝ :=
  if b = 0 then none else some (a / b)

/-- `mat4.lookAt` with every division checked: it returns `none` as soon as
some component would be produced by a division by zero, and otherwise the
matrix of `lookAt`.  The branch structure is the source's. -/
def lookAtChecked (eye center up : Vec3) : Option Mat :=
  let zr0 : ℝ := eye.v0 - center.v0
  let zr1 : ℝ := eye.v1 - center.v1
  let zr2 : ℝ := eye.v2 - center.v2
  let lenz : ℝ := hyp3 zr0 zr1 zr2
  let zOpt : Option (ℝ × ℝ × ℝ) :=
    if lenz = 0 then some (zr0, zr1, 1) else
      match checkedDiv zr0 lenz, checkedDiv zr1 lenz, checkedDiv zr2 lenz with
      | some d0, some d1, some d2 => some (d0, d1, d2)
      | _, _, _ => none
  match zOpt with
  | none => none
  | some zv =>
    let xr0 : ℝ := up.v1 * zv.2.2 - up.v2 * zv.2.1
    let xr1 : ℝ := up.v2 * zv.1 - up.v0 * zv.2.2
    let xr2 : ℝ := up.v0 * zv.2.1 - up.v1 * zv.1
    let lenx : ℝ := hyp3 xr0 xr1 xr2
    let xOpt : Option (ℝ × ℝ × ℝ) :=
      if lenx = 0 then some (1, xr1, xr2) else
        match checkedDiv xr0 lenx, checkedDiv xr1 lenx, checkedDiv xr2 lenx with
        | some d0, some d1, some d2 => some (d0, d1, d2)
        | _, _, _ => none
    match xOpt with
    | none => none
    | some xv =>
      let y0 : ℝ := zv.2.1 * xv.2.2 - zv.2.2 * xv.2.1
      let y1 : ℝ := zv.2.2 * xv.1 - zv.1 * xv.2.2
      let y2 : ℝ := zv.1 * xv.2.1 - zv.2.1 * xv.1
      some ⟨xv.1, y0, zv.1, 0,
            xv.2.1, y1, zv.2.1, 0,
            xv.2.2, y2, zv.2.2, 0,
            -(xv.1 * eye.v0 + xv.2.1 * eye.v1 + xv.2.2 * eye.v2),
            -(y0 * eye.v0 + y1 * eye.v1 + y2 * eye.v2),
            -(zv.1 * eye.v0 + zv.2.1 * eye.v1 + zv.2.2 * eye.v2),
            1⟩

end mat4

/-- Index of the element at column `c`, row `r` under the column-major
index interpretation of the claim: `4 * c + r`. -/
def colIdx (c r : Fin 4) : Fin 16 := ⟨4 * c.val + r.val, by omega⟩

/-- Stated from the spec's words, to be compared with `mat4.multiply`:
`p` holds the matrix product `a × b` under the column-major index
interpretation, i.e. the element of `p` at column `c`, row `r` is the dot
product of row `r` of `a` with column `c` of `b`. -/
def IsColMajorProductOf (p a b : Mat) : Prop :=
  ∀ c r : Fin 4, p.get (colIdx c r) = ∑ k : Fin 4, a.get (colIdx k r) * b.get (colIdx c k)

/-! ## C1: what product `mat4.multiply` computes -/

/-- C1, counterexample.  Take `a` with a single 1 at index 1 (column 0,
row 1) and `b` with a single 1 at index 4 (column 1, row 0).  Under the
column-major interpretation `a × b` has its only nonzero element at index 5,
but `mat4.multiply` produces a matrix with element 1 at index 0: the claim
that `multiply(out, a, b)` stores `a × b` column-major is false. -/
theorem C1_counterexample :
    ¬ IsColMajorProductOf
      (mat4.multiply mat4.create
        ⟨0, 1, 0, 0, 0, 0, 0, 0, 0, 0, 0, 0, 0, 0, 0, 0⟩
        ⟨0, 0, 0, 0, 1, 0, 0, 0, 0, 0, 0, 0, 0, 0, 0, 0⟩)
      ⟨0, 1, 0, 0, 0, 0, 0, 0, 0, 0, 0, 0, 0, 0, 0, 0⟩
      ⟨0, 0, 0, 0, 1, 0, 0, 0, 0, 0, 0, 0, 0, 0, 0, 0⟩ := by
  intro h
  have h00 := h 0 0
  simp [IsColMajorProductOf, colIdx, Mat.get, mat4.multiply, Fin.sum_univ_four] at h00

/-- C1, amended.  `mat4.multiply(out, a, b)` stores in `out` the matrix
product `b × a` under the column-major index interpretation (element at
column `c`, row `r` stored at index `4*c + r`), i.e. the composite transform
that applies `a` first and then `b`; equivalently, it is `a × b` under the
row-major interpretation. -/
theorem C1_amended_multiply_colmajor :
    ∀ out a b : Mat, IsColMajorProductOf (mat4.multiply out a b) b a := by
  intro out a b c r
  fin_cases c <;> fin_cases r <;>
    simp [IsColMajorProductOf, colIdx, Mat.get, mat4.multiply, Fin.sum_univ_four] <;> ring

/-! ## C2: which elements each operation writes -/

/-- C2, counterexample.  `mat4.translate` does not write a complete
16-element result: its output depends on the prior contents of the output
matrix (here element 0 stays 1 resp. 0), so the claim is false. -/
theorem C2_counterexample :
    mat4.translate ⟨1, 1, 1, 1, 1, 1, 1, 1, 1, 1, 1, 1, 1, 1, 1, 1⟩ mat4.create ⟨0, 0, 0⟩ ≠
    mat4.translate ⟨0, 0, 0, 0, 0, 0, 0, 0, 0, 0, 0, 0, 0, 0, 0, 0⟩ mat4.create ⟨0, 0, 0⟩ := by
  intro h
  have h0 := congrArg Mat.m0 h
  norm_num [mat4.translate] at h0

/-- C2, amended.  `copy`, `multiply`, `perspective` and `lookAt` write their
complete 16-element result, independent of the output matrix's prior
contents; `translate` writes only elements 12–15, `scale` only 0–11,
`rotateX` only 4–11, `rotateY` only 0–3 and 8–11, `rotateZ` only 0–7 and
`ortho` only 0, 5, 10 and 12–15, in each case computing the written elements
from the inputs alone and leaving every other element of the output matrix
at its prior value (each operation still returns the caller-supplied output
matrix). -/
theorem C2_amended_write_sets :
    (∀ out o2 a : Mat, mat4.copy out a = mat4.copy o2 a) ∧
    (∀ out o2 a b : Mat, mat4.multiply out a b = mat4.multiply o2 a b) ∧
    (∀ out o2 : Mat, ∀ fov aspect near far : ℝ,
      mat4.perspective out fov aspect near far = mat4.perspective o2 fov aspect near far) ∧
    (∀ out o2 : Mat, ∀ eye center up : Vec3,
      mat4.lookAt out eye center up = mat4.lookAt o2 eye center up) ∧
    (∀ out a : Mat, ∀ v : Vec3,
      ((mat4.translate out a v).m0, (mat4.translate out a v).m1, (mat4.translate out a v).m2,
       (mat4.translate out a v).m3, (mat4.translate out a v).m4, (mat4.translate out a v).m5,
       (mat4.translate out a v).m6, (mat4.translate out a v).m7, (mat4.translate out a v).m8,
       (mat4.translate out a v).m9, (mat4.translate out a v).m10, (mat4.translate out a v).m11) =
      (out.m0, out.m1, out.m2, out.m3, out.m4, out.m5,
       out.m6, out.m7, out.m8, out.m9, out.m10, out.m11)) ∧
    (∀ out o2 a : Mat, ∀ v : Vec3,
      ((mat4.translate out a v).m12, (mat4.translate out a v).m13,
       (mat4.translate out a v).m14, (mat4.translate out a v).m15) =
      ((mat4.translate o2 a v).m12, (mat4.translate o2 a v).m13,
       (mat4.translate o2 a v).m14, (mat4.translate o2 a v).m15)) ∧
    (∀ out a : Mat, ∀ v : Vec3,
      ((mat4.scale out a v).m12, (mat4.scale out a v).m13,
       (mat4.scale out a v).m14, (mat4.scale out a v).m15) =
      (out.m12, out.m13, out.m14, out.m15)) ∧
    (∀ out o2 a : Mat, ∀ v : Vec3,
      ((mat4.scale out a v).m0, (mat4.scale out a v).m1, (mat4.scale out a v).m2,
       (mat4.scale out a v).m3, (mat4.scale out a v).m4, (mat4.scale out a v).m5,
       (mat4.scale out a v).m6, (mat4.scale out a v).m7, (mat4.scale out a v).m8,
       (mat4.scale out a v).m9, (mat4.scale out a v).m10, (mat4.scale out a v).m11) =
      ((mat4.scale o2 a v).m0, (mat4.scale o2 a v).m1, (mat4.scale o2 a v).m2,
       (mat4.scale o2 a v).m3, (mat4.scale o2 a v).m4, (mat4.scale o2 a v).m5,
       (mat4.scale o2 a v).m6, (mat4.scale o2 a v).m7, (mat4.scale o2 a v).m8,
       (mat4.scale o2 a v).m9, (mat4.scale o2 a v).m10, (mat4.scale o2 a v).m11)) ∧
    (∀ out a : Mat, ∀ rad : ℝ,
      ((mat4.rotateX out a rad).m0, (mat4.rotateX out a rad).m1, (mat4.rotateX out a rad).m2,
       (mat4.rotateX out a rad).m3, (mat4.rotateX out a rad).m12, (mat4.rotateX out a rad).m13,
       (mat4.rotateX out a rad).m14, (mat4.rotateX out a rad).m15) =
      (out.m0, out.m1, out.m2, out.m3, out.m12, out.m13, out.m14, out.m15)) ∧
    (∀ out o2 a : Mat, ∀ rad : ℝ,
      ((mat4.rotateX out a rad).m4, (mat4.rotateX out a rad).m5, (mat4.rotateX out a rad).m6,
       (mat4.rotateX out a rad).m7, (mat4.rotateX out a rad).m8, (mat4.rotateX out a rad).m9,
       (mat4.rotateX out a rad).m10, (mat4.rotateX out a rad).m11) =
      ((mat4.rotateX o2 a rad).m4, (mat4.rotateX o2 a rad).m5, (mat4.rotateX o2 a rad).m6,
       (mat4.rotateX o2 a rad).m7, (mat4.rotateX o2 a rad).m8, (mat4.rotateX o2 a rad).m9,
       (mat4.rotateX o2 a rad).m10, (mat4.rotateX o2 a rad).m11)) ∧
    (∀ out a : Mat, ∀ rad : ℝ,
      ((mat4.rotateY out a rad).m4, (mat4.rotateY out a rad).m5, (mat4.rotateY out a rad).m6,
       (mat4.rotateY out a rad).m7, (mat4.rotateY out a rad).m12, (mat4.rotateY out a rad).m13,
       (mat4.rotateY out a rad).m14, (mat4.rotateY out a rad).m15) =
      (out.m4, out.m5, out.m6, out.m7, out.m12, out.m13, out.m14, out.m15)) ∧
    (∀ out o2 a : Mat, ∀ rad : ℝ,
      ((mat4.rotateY out a rad).m0, (mat4.rotateY out a rad).m1, (mat4.rotateY out a rad).m2,
       (mat4.rotateY out a rad).m3, (mat4.rotateY out a rad).m8, (mat4.rotateY out a rad).m9,
       (mat4.rotateY out a rad).m10, (mat4.rotateY out a rad).m11) =
      ((mat4.rotateY o2 a rad).m0, (mat4.rotateY o2 a rad).m1, (mat4.rotateY o2 a rad).m2,
       (mat4.rotateY o2 a rad).m3, (mat4.rotateY o2 a rad).m8, (mat4.rotateY o2 a rad).m9,
       (mat4.rotateY o2 a rad).m10, (mat4.rotateY o2 a rad).m11)) ∧
    (∀ out a : Mat, ∀ rad : ℝ,
      ((mat4.rotateZ out a rad).m8, (mat4.rotateZ out a rad).m9, (mat4.rotateZ out a rad).m10,
       (mat4.rotateZ out a rad).m11, (mat4.rotateZ out a rad).m12, (mat4.rotateZ out a rad).m13,
       (mat4.rotateZ out a rad).m14, (mat4.rotateZ out a rad).m15) =
      (out.m8, out.m9, out.m10, out.m11, out.m12, out.m13, out.m14, out.m15)) ∧
    (∀ out o2 a : Mat, ∀ rad : ℝ,
      ((mat4.rotateZ out a rad).m0, (mat4.rotateZ out a rad).m1, (mat4.rotateZ out a rad).m2,
       (mat4.rotateZ out a rad).m3, (mat4.rotateZ out a rad).m4, (mat4.rotateZ out a rad).m5,
       (mat4.rotateZ out a rad).m6, (mat4.rotateZ out a rad).m7) =
      ((mat4.rotateZ o2 a rad).m0, (mat4.rotateZ o2 a rad).m1, (mat4.rotateZ o2 a rad).m2,
       (mat4.rotateZ o2 a rad).m3, (mat4.rotateZ o2 a rad).m4, (mat4.rotateZ o2 a rad).m5,
       (mat4.rotateZ o2 a rad).m6, (mat4.rotateZ o2 a rad).m7)) ∧
    (∀ out : Mat, ∀ left right bottom top near far : ℝ,
      ((mat4.ortho out left right bottom top near far).m1,
       (mat4.ortho out left right bottom top near far).m2,
       (mat4.ortho out left right bottom top near far).m3,
       (mat4.ortho out left right bottom top near far).m4,
       (mat4.ortho out left right bottom top near far).m6,
       (mat4.ortho out left right bottom top near far).m7,
       (mat4.ortho out left right bottom top near far).m8,
       (mat4.ortho out left right bottom top near far).m9,
       (mat4.ortho out left right bottom top near far).m11) =
      (out.m1, out.m2, out.m3, out.m4, out.m6, out.m7, out.m8, out.m9, out.m11)) ∧
    (∀ out o2 : Mat, ∀ left right bottom top near far : ℝ,
      ((mat4.ortho out left right bottom top near far).m0,
       (mat4.ortho out left right bottom top near far).m5,
       (mat4.ortho out left right bottom top near far).m10,
       (mat4.ortho out left right bottom top near far).m12,
       (mat4.ortho out left right bottom top near far).m13,
       (mat4.ortho out left right bottom top near far).m14,
       (mat4.ortho out left right bottom top near far).m15) =
      ((mat4.ortho o2 left right bottom top near far).m0,
       (mat4.ortho o2 left right bottom top near far).m5,
       (mat4.ortho o2 left right bottom top near far).m10,
       (mat4.ortho o2 left right bottom top near far).m12,
       (mat4.ortho o2 left right bottom top near far).m13,
       (mat4.ortho o2 left right bottom top near far).m14,
       (mat4.ortho o2 left right bottom top near far).m15)) := by
  refine ⟨?_, ?_, ?_, ?_, ?_, ?_, ?_, ?_, ?_, ?_, ?_, ?_, ?_, ?_, ?_, ?_⟩ <;> intros <;> rfl

/-! ## C3, C4: inversion -/

/-- Helper: when the determinant is nonzero, the matrix written by
`mat4.invert` is a right inverse of `a` for the library's own `multiply`. -/
theorem multiply_invertVals_right (out a : Mat) (h : mat4.det a ≠ 0) :
    mat4.multiply out a (mat4.invertVals a) = mat4.create := by
  simp only [mat4.det] at h
  ext <;> simp only [mat4.multiply, mat4.invertVals, mat4.det, mat4.create] <;>
    field_simp <;> ring

/-- Helper: when the determinant is nonzero, the matrix written by
`mat4.invert` is a left inverse of `a` for the library's own `multiply`. -/
theorem multiply_invertVals_left (out a : Mat) (h : mat4.det a ≠ 0) :
    mat4.multiply out (mat4.invertVals a) a = mat4.create := by
  simp only [mat4.det] at h
  ext <;> simp only [mat4.multiply, mat4.invertVals, mat4.det, mat4.create] <;>
    field_simp <;> ring

/-- C3: `mat4.invert(out, a)` returns the failure sentinel `null` (here
`none`, distinct from any matrix) exactly when the determinant of `a` is
zero, leaving `out` untouched in that case; whenever the determinant is
nonzero it returns the written output matrix, which is a two-sided inverse
of `a` for the library's `multiply`. -/
theorem C3_invert_sentinel_iff_singular :
    ∀ out a : Mat,
      (mat4.invert out a = none ↔ mat4.det a = 0) ∧
      (mat4.det a ≠ 0 → ∃ r : Mat, mat4.invert out a = some r ∧
        mat4.multiply mat4.create a r = mat4.create ∧
        mat4.multiply mat4.create r a = mat4.create) := by
  intro out a
  constructor
  · unfold mat4.invert
    split <;> simp_all
  · intro h
    refine ⟨mat4.invertVals a, ?_, ?_, ?_⟩
    · simp [mat4.invert, h]
    · exact multiply_invertVals_right _ a h
    · exact multiply_invertVals_left _ a h

/-- The diagonal matrix diag(2, 1, 1, 1), a concrete non-singular input. -/
def twoMat : Mat :=
  ⟨2, 0, 0, 0,
   0, 1, 0, 0,
   0, 0, 1, 0,
   0, 0, 0, 1⟩

/-- The diagonal matrix diag(1/2, 1, 1, 1), the inverse `mat4.invert`
computes for `twoMat`. -/
def halfMat : Mat :=
  ⟨1 / 2, 0, 0, 0,
   0, 1, 0, 0,
   0, 0, 1, 0,
   0, 0, 0, 1⟩

/-- C3, witness: at the concrete non-singular matrix diag(2,1,1,1), `invert`
returns a matrix that multiplies with it to the identity on both sides. -/
theorem C3_witness :
    ∃ r : Mat, mat4.invert mat4.create twoMat = some r ∧
      mat4.multiply mat4.create twoMat r = mat4.create ∧
      mat4.multiply mat4.create r twoMat = mat4.create :=
  (C3_invert_sentinel_iff_singular mat4.create twoMat).2
    (by norm_num [mat4.det, twoMat])

/-- C4: whenever `m` is non-singular and `invert` succeeds on it,
`multiply(out, m, invert(m))` is exactly the identity matrix (exact over the
reals, so certainly within floating tolerance); and `invert` returns the
failure sentinel on the singular scale matrix obtained by scaling the
identity with a zero z-axis factor, whatever the output matrices hold. -/
theorem C4_invert_roundtrip :
    (∀ out o2 m r : Mat, mat4.det m ≠ 0 → mat4.invert out m = some r →
      mat4.multiply o2 m r = mat4.create) ∧
    (∀ out o2 : Mat, ∀ s t : ℝ,
      mat4.invert out (mat4.scale o2 mat4.create ⟨s, t, 0⟩) = none) := by
  constructor
  · intro out o2 m r hm hr
    have : r = mat4.invertVals m := by
      simp [mat4.invert, hm] at hr
      exact hr.symm
    subst this
    exact multiply_invertVals_right o2 m hm
  · intro out o2 s t
    have hd : mat4.det (mat4.scale o2 mat4.create ⟨s, t, 0⟩) = 0 := by
      simp [mat4.det, mat4.scale, mat4.create]
    simp [mat4.invert, hd]

/-- C4, witness: the round trip at the concrete matrix diag(2,1,1,1) and its
computed inverse diag(1/2,1,1,1). -/
theorem C4_witness :
    mat4.multiply mat4.create twoMat halfMat = mat4.create :=
  C4_invert_roundtrip.1 mat4.create mat4.create twoMat halfMat
    (by norm_num [mat4.det, twoMat])
    (by norm_num [mat4.invert, mat4.det, mat4.invertVals, twoMat, halfMat])

/-! ## C7: Mesh.update -/

/-- The mutable per-mesh state that `Mesh.update` touches: the `rotation`
accumulator (`this.rotation`) and the model matrix (`this.model`). -/
structure MeshState where
  rotation : Vec3
  model : Mat

/-- The state of a freshly constructed `Mesh`: `this.rotation = [0, 0, 0]`
and `this.model = mat4.create()`. -/
def meshInit : MeshState := ⟨⟨0, 0, 0⟩, mat4.create⟩

/-- Modelled from the spec: `mat4.identity(out)`, which `Mesh.update` calls
(mesh.js line 105), is NOT defined by the `mat4` object of math.js
(src/unnamed/part_002) — see the C7 analysis.  Spec section 4.3 says the
model matrix is rebuilt "from scratch (identity, then rotate X, then Y,
then Z)", so the intended `identity` is modelled as overwriting `out` with
the identity matrix and returning it. -/
def mat4.identity (_out : Mat) : Mat := mat4.create

/-- `Mesh.update()` as intended by the spec: advance each rotation axis by
the per-axis `rotationSpeed`, then rebuild the model matrix in place:
identity, then `rotateX`, `rotateY`, `rotateZ` at the accumulated angles
(each rotate call has `out == a == this.model`). -/
def Mesh.update (speed : Vec3) (s : MeshState) : MeshState :=
  let r : Vec3 := ⟨s.rotation.v0 + speed.v0, s.rotation.v1 + speed.v1,
    s.rotation.v2 + speed.v2⟩
  let n0 : Mat := mat4.identity s.model
  let n1 : Mat := mat4.rotateX n0 n0 r.v0
  let n2 : Mat := mat4.rotateY n1 n1 r.v1
  let n3 : Mat := mat4.rotateZ n2 n2 r.v2
  ⟨r, n3⟩

/-- The model matrix "built directly by starting from identity and applying
rotateX, then rotateY, then rotateZ" at the given angles, as the claim
states it. -/
def builtModel (rx ry rz : ℝ) : Mat :=
  let n0 : Mat := mat4.create
  let n1 : Mat := mat4.rotateX n0 n0 rx
  let n2 : Mat := mat4.rotateY n1 n1 ry
  mat4.rotateZ n2 n2 rz

/-- C7 (for the intended `Mesh.update`, with the missing `mat4.identity`
modelled from the spec): starting from a fresh mesh, N updates advance the
rotation accumulator to exactly N x rotationSpeed on each axis, and the
model matrix afterwards equals the matrix built directly from identity by
rotateX, rotateY, rotateZ at the accumulated angles.  As written, however,
the code throws before rebuilding the model: `mat4.identity` does not exist
(see RESULTS for C7). -/
theorem C7_update_accumulates_and_rebuilds :
    ∀ (speed : Vec3) (N : ℕ),
      ((Mesh.update speed)^[N] meshInit).rotation =
        ⟨N * speed.v0, N * speed.v1, N * speed.v2⟩ ∧
      ((Mesh.update speed)^[N] meshInit).model =
        builtModel (N * speed.v0) (N * speed.v1) (N * speed.v2) := by
  intro speed N
  induction N with
  | zero =>
    constructor
    · simp [meshInit]
    · simp [meshInit, builtModel, mat4.rotateX, mat4.rotateY, mat4.rotateZ, mat4.create]
  | succ n ih =>
    obtain ⟨ihr, ihm⟩ := ih
    rw [Function.iterate_succ_apply']
    have a0 : (n : ℝ) * speed.v0 + speed.v0 = ((n + 1 : ℕ) : ℝ) * speed.v0 := by
      push_cast; ring
    have a1 : (n : ℝ) * speed.v1 + speed.v1 = ((n + 1 : ℕ) : ℝ) * speed.v1 := by
      push_cast; ring
    have a2 : (n : ℝ) * speed.v2 + speed.v2 = ((n + 1 : ℕ) : ℝ) * speed.v2 := by
      push_cast; ring
    constructor
    · simp only [Mesh.update, ihr]
      simp [a0, a1, a2]
    · simp only [Mesh.update, ihr, mat4.identity]
      simp only [builtModel]
      simp [a0, a1, a2]

end MatrixLibrary

/-! ## C5: perspective clip convention -/

/-- C5: for valid field-of-view, aspect and depth range, the bottom-right
block of the perspective matrix follows the OpenGL clip convention with
depth range -1..1: element 10 is `(far + near) / (near - far)`, element 11
is `-1`, element 14 is `2 * far * near / (near - far)` and element 15 is
`0`. -/
theorem C5_perspective_clip_convention :
    ∀ out : Mat, ∀ fov aspect near far : ℝ,
      0 < fov → fov < Real.pi → 0 < aspect → 0 < near → near < far →
      (mat4.perspective out fov aspect near far).m10 = (far + near) / (near - far) ∧
      (mat4.perspective out fov aspect near far).m11 = -1 ∧
      (mat4.perspective out fov aspect near far).m14 = 2 * far * near / (near - far) ∧
      (mat4.perspective out fov aspect near far).m15 = 0 := by
  intro out fov aspect near far h1 h2 h3 h4 h5
  refine ⟨?_, ?_, ?_, ?_⟩ <;> simp [mat4.perspective] <;> try ring

/-- C5, witness: at fov 1, aspect 1, near 1, far 2 (all valid) the four
claimed elements. -/
theorem C5_witness :
    (mat4.perspective mat4.create 1 1 1 2).m10 = (2 + 1) / (1 - 2) ∧
    (mat4.perspective mat4.create 1 1 1 2).m11 = -1 ∧
    (mat4.perspective mat4.create 1 1 1 2).m14 = 2 * 2 * 1 / (1 - 2) ∧
    (mat4.perspective mat4.create 1 1 1 2).m15 = 0 :=
  C5_perspective_clip_convention mat4.create 1 1 1 2 one_pos
    (lt_trans (by norm_num : (1 : ℝ) < 3) Real.pi_gt_three) one_pos one_pos one_lt_two

/-! ## C6: lookAt degenerate cases -/

/-- Over the reals, `Math.hypot` vanishes exactly on the zero vector. -/
theorem hyp3_eq_zero_iff (x y z : ℝ) : hyp3 x y z = 0 ↔ x = 0 ∧ y = 0 ∧ z = 0 := by
  unfold hyp3
  rw [show x * x + y * y + z * z = x ^ 2 + y ^ 2 + z ^ 2 by ring,
    Real.sqrt_eq_zero (by positivity)]
  constructor
  · intro h
    refine ⟨?_, ?_, ?_⟩ <;> nlinarith [sq_nonneg x, sq_nonneg y, sq_nonneg z]
  · rintro ⟨rfl, rfl, rfl⟩
    ring

/-- C6: `lookAt` never produces a NaN component: the division-checked
variant (where any division by a zero length would yield `none`) always
succeeds and agrees with `lookAt` for every eye, center and up vector.
Moreover, in the degenerate cases a safe default axis is substituted: with
`eye == center` the view axis stored in elements 2, 6, 10 is the default
`(0, 0, 1)`, and with `up` parallel to the view direction `eye - center`
the right axis stored in elements 0, 4, 8 is the default `(1, 0, 0)`. -/
theorem C6_lookAt_no_nan :
    (∀ out : Mat, ∀ eye center up : Vec3,
      mat4.lookAtChecked eye center up = some (mat4.lookAt out eye center up)) ∧
    (∀ out : Mat, ∀ eye up : Vec3,
      (mat4.lookAt out eye eye up).m2 = 0 ∧ (mat4.lookAt out eye eye up).m6 = 0 ∧
      (mat4.lookAt out eye eye up).m10 = 1) ∧
    (∀ out : Mat, ∀ eye center up : Vec3, ∀ c : ℝ,
      up = ⟨c * (eye.v0 - center.v0), c * (eye.v1 - center.v1), c * (eye.v2 - center.v2)⟩ →
      (mat4.lookAt out eye center up).m0 = 1 ∧ (mat4.lookAt out eye center up).m4 = 0 ∧
      (mat4.lookAt out eye center up).m8 = 0) := by
  refine ⟨?_, ?_, ?_⟩
  · intro out eye center up
    simp only [mat4.lookAtChecked, mat4.lookAt, mat4.checkedDiv]
    split_ifs <;> simp_all
  · intro out eye up
    simp [mat4.lookAt, hyp3]
  · intro out eye center up c hup
    subst hup
    rcases eq_or_ne (hyp3 (eye.v0 - center.v0) (eye.v1 - center.v1) (eye.v2 - center.v2)) 0
      with hz | hz
    · obtain ⟨h0, h1, h2⟩ := (hyp3_eq_zero_iff _ _ _).1 hz
      simp [mat4.lookAt, hz, h0, h1, h2, hyp3]
    · set q0 := eye.v0 - center.v0 with hq0
      set q1 := eye.v1 - center.v1 with hq1
      set q2 := eye.v2 - center.v2 with hq2
      simp only [mat4.lookAt]
      rw [if_neg hz]
      have e0 : c * q1 * (q2 / hyp3 q0 q1 q2) - c * q2 * (q1 / hyp3 q0 q1 q2) = 0 := by ring
      have e1 : c * q2 * (q0 / hyp3 q0 q1 q2) - c * q0 * (q2 / hyp3 q0 q1 q2) = 0 := by ring
      have e2 : c * q0 * (q1 / hyp3 q0 q1 q2) - c * q1 * (q0 / hyp3 q0 q1 q2) = 0 := by ring
      simp only [e0, e1, e2]
      have h00 : hyp3 0 0 0 = 0 := by simp [hyp3]
      rw [if_pos h00]
      exact ⟨rfl, rfl, rfl⟩

/-- C6, witness: the degenerate `up` parallel to the view direction at a
concrete input (eye (1,0,0), center origin, up (2,0,0) = 2 x view
direction): the right axis elements are the default (1, 0, 0). -/
theorem C6_witness :
    (mat4.lookAt mat4.create ⟨1, 0, 0⟩ ⟨0, 0, 0⟩ ⟨2, 0, 0⟩).m0 = 1 ∧
    (mat4.lookAt mat4.create ⟨1, 0, 0⟩ ⟨0, 0, 0⟩ ⟨2, 0, 0⟩).m4 = 0 ∧
    (mat4.lookAt mat4.create ⟨1, 0, 0⟩ ⟨0, 0, 0⟩ ⟨2, 0, 0⟩).m8 = 0 :=
  C6_lookAt_no_nan.2.2 mat4.create ⟨1, 0, 0⟩ ⟨0, 0, 0⟩ ⟨2, 0, 0⟩ 2 (by norm_num)

/-! ## C8: the engine loader (js3dhelper, src/unnamed/part_000) -/

/-- The duck-typing surface of a dynamically imported module that
`createEngine` inspects on a raw (unrecognized) specifier: presence of
`WebGLRenderer`/`Scene`/`PerspectiveCamera` (three-like), `Engine`/`Scene`
(Babylon-like), `Application` or `pc.Application` (PlayCanvas-like). -/
structure JsModule where
  hasWebGLRenderer : Bool
  hasScene : Bool
  hasPerspectiveCamera : Bool
  hasEngine : Bool
  hasApplication : Bool
  hasPcApplication : Bool

/-- The host environment the loader runs in, for handles of type `H`:
`tryImport` is the dynamic `import()` wrapped in the silent try/catch of
the source (`none` = load failure); `windowPc` is `window.pc`; each
`initX` is the engine-specific initializer, `none` meaning it threw (the
source catches and continues). -/
structure Env (H : Type) where
  tryImport : String → Option JsModule
  windowPc : Option JsModule
  initThreeFn : JsModule → Option H
  initBabylonFn : JsModule → Option H
  initPlaycanvasFn : JsModule → Option H

/-- One iteration of `createEngine`'s `for (const name of prefer)` loop:
what the body returns for candidate `name` (`none` = fall through to the
next candidate). -/
def attemptCandidate {H : Type} (env : Env H) (name : String) : Option H :=
  if name = "three" then
    (env.tryImport "three").bind env.initThreeFn
  else if name = "@babylonjs/core" ∨ name = "babylon" then
    ((env.tryImport "@babylonjs/core").or (env.tryImport "babylonjs")).bind env.initBabylonFn
  else if name = "playcanvas" then
    ((env.tryImport "playcanvas").or env.windowPc).bind env.initPlaycanvasFn
  else
    match env.tryImport name with
    | none => none
    | some m =>
      if m.hasWebGLRenderer && m.hasScene && m.hasPerspectiveCamera then env.initThreeFn m
      else if m.hasEngine && m.hasScene then env.initBabylonFn m
      else if m.hasApplication || m.hasPcApplication then env.initPlaycanvasFn m
      else none

/-- The message of the error thrown when every candidate failed. -/
def noEngineMsg : String :=
  "No supported 3D engine available. Install or load three, @babylonjs/core or playcanvas."

/-- `createEngine(canvas, options)`: walk the preference list in order,
return the first successful handle, throw the "no engine available" error
when the list is exhausted. -/
def createEngine {H : Type} (env : Env H) : List String → Except String H
  | [] => Except.error noEngineMsg
  | name :: rest =>
    match attemptCandidate env name with
    | some h => Except.ok h
    | none => createEngine env rest

/-- Helper: if every candidate of the list fails, `createEngine` fails with
the "no engine available" error. -/
theorem createEngine_all_fail {H : Type} (env : Env H) :
    ∀ prefer : List String, (∀ n ∈ prefer, attemptCandidate env n = none) →
      createEngine env prefer = Except.error noEngineMsg := by
  intro prefer
  induction prefer with
  | nil => intro _; rfl
  | cons a l ih =>
    intro h
    have ha := h a (List.mem_cons_self a l)
    simp only [createEngine, ha]
    exact ih fun n hn => h n (List.mem_cons_of_mem a hn)

/-- Helper: `createEngine` returns the handle of the first candidate that
succeeds, skipping every earlier failing candidate. -/
theorem createEngine_first_success {H : Type} (env : Env H) :
    ∀ (pre : List String) (name : String) (post : List String) (h : H),
      (∀ n ∈ pre, attemptCandidate env n = none) →
      attemptCandidate env name = some h →
      createEngine env (pre ++ name :: post) = Except.ok h := by
  intro pre
  induction pre with
  | nil =>
    intro name post h _ hname
    simp [createEngine, hname]
  | cons a l ih =>
    intro name post h hpre hname
    have ha := hpre a (List.mem_cons_self a l)
    simp only [List.cons_append, createEngine, ha]
    exact ih name post h (fun n hn => hpre n (List.mem_cons_of_mem a hn)) hname

/-- C8: `createEngine` tries the candidates in list order; a candidate
yields a handle only if its dynamic load and its initialization both
succeed (for the "three" candidate: load failure short-circuits, load
success hands the module to the initializer); any failure silently falls
through to the next candidate; the first success is returned, and an
exhausted list yields the explicit "no engine available" error. -/
theorem C8_loader_order :
    ∀ (H : Type) (env : Env H),
      (∀ prefer : List String, (∀ n ∈ prefer, attemptCandidate env n = none) →
        createEngine env prefer = Except.error noEngineMsg) ∧
      (∀ (pre : List String) (name : String) (post : List String) (h : H),
        (∀ n ∈ pre, attemptCandidate env n = none) →
        attemptCandidate env name = some h →
        createEngine env (pre ++ name :: post) = Except.ok h) ∧
      (env.tryImport "three" = none → attemptCandidate env "three" = none) ∧
      (∀ m : JsModule, env.tryImport "three" = some m →
        attemptCandidate env "three" = env.initThreeFn m) := by
  intro H env
  refine ⟨createEngine_all_fail env, createEngine_first_success env, ?_, ?_⟩
  · intro h
    simp [attemptCandidate, h]
  · intro m h
    simp [attemptCandidate, h]

/-- A concrete environment for the C8 witness: loading "three" fails,
loading "playcanvas" succeeds and its initializer returns handle 7. -/
def envW : Env ℕ where
  tryImport := fun s => if s = "playcanvas" then some ⟨false, false, false, false, true, false⟩ else none
  windowPc := none
  initThreeFn := fun _ => none
  initBabylonFn := fun _ => none
  initPlaycanvasFn := fun _ => some 7

/-- C8, witness: with the concrete environment `envW` and preference list
`["three", "playcanvas"]`, the failing "three" candidate is skipped and the
handle of "playcanvas" is returned. -/
theorem C8_witness : createEngine envW ["three", "playcanvas"] = Except.ok 7 :=
  (C8_loader_order ℕ envW).2.1 ["three"] "playcanvas" [] 7
    (by
      intro n hn
      simp only [List.mem_singleton] at hn
      subst hn
      rfl)
    rfl

/-! ## C9, C10: the per-adapter block registry -/

/-- `blockKey(x, y, z)`: the template literal `x,y,z`, identical in all
three adapters. -/
def blockKey (x y z : ℤ) : String :=
  toString x ++ "," ++ toString y ++ "," ++ toString z

/-- `Map.prototype.get` on the block registry, modelled as an association
list (a JS `Map` holds at most one entry per key; first match wins). -/
def mapGet {B : Type} (k : String) : List (String × B) → Option B
  | [] => none
  | p :: rest => if p.1 = k then some p.2 else mapGet k rest

/-- `Map.prototype.set` on the block registry. -/
def mapSet {B : Type} (k : String) (b : B) : List (String × B) → List (String × B)
  | [] => [(k, b)]
  | p :: rest => if p.1 = k then (k, b) :: rest else p :: mapSet k b rest

/-- `Map.prototype.delete` on the block registry: removes the entry with
the given key. -/
def mapDelete {B : Type} (k : String) : List (String × B) → List (String × B)
  | [] => []
  | p :: rest => if p.1 = k then rest else p :: mapDelete k rest

namespace initThree

/-- `addBlock(x, y, z, settings)` of the three.js adapter, restricted to its
effect on the `blocks` registry: if the key is present return the stored
mesh unchanged, otherwise create a mesh (`mk`, whose construction is the
external engine's business) and register it. -/
def addBlock {B : Type} (blocks : List (String × B)) (x y z : ℤ) (mk : B) :
    B × List (String × B) :=
  match mapGet (blockKey x y z) blocks with
  | some b => (b, blocks)
  | none => (mk, mapSet (blockKey x y z) mk blocks)

/-- `removeBlock(x, y, z)` of the three.js adapter, restricted to its effect
on the `blocks` registry: a present block is disposed (external), its key
deleted and `true` returned; a missing block returns `false`. -/
def removeBlock {B : Type} (blocks : List (String × B)) (x y z : ℤ) :
    Bool × List (String × B) :=
  match mapGet (blockKey x y z) blocks with
  | none => (false, blocks)
  | some _ => (true, mapDelete (blockKey x y z) blocks)

end initThree

namespace initBabylon

/-- `addBlock` of the Babylon adapter: same registry logic. -/
def addBlock {B : Type} (blocks : List (String × B)) (x y z : ℤ) (mk : B) :
    B × List (String × B) :=
  match mapGet (blockKey x y z) blocks with
  | some b => (b, blocks)
  | none => (mk, mapSet (blockKey x y z) mk blocks)

/-- `removeBlock` of the Babylon adapter: same registry logic. -/
def removeBlock {B : Type} (blocks : List (String × B)) (x y z : ℤ) :
    Bool × List (String × B) :=
  match mapGet (blockKey x y z) blocks with
  | none => (false, blocks)
  | some _ => (true, mapDelete (blockKey x y z) blocks)

end initBabylon

namespace initPlaycanvas

/-- `addBlock` of the PlayCanvas adapter: same registry logic. -/
def addBlock {B : Type} (blocks : List (String × B)) (x y z : ℤ) (mk : B) :
    B × List (String × B) :=
  match mapGet (blockKey x y z) blocks with
  | some b => (b, blocks)
  | none => (mk, mapSet (blockKey x y z) mk blocks)

/-- `removeBlock` of the PlayCanvas adapter: same registry logic. -/
def removeBlock {B : Type} (blocks : List (String × B)) (x y z : ℤ) :
    Bool × List (String × B) :=
  match mapGet (blockKey x y z) blocks with
  | none => (false, blocks)
  | some _ => (true, mapDelete (blockKey x y z) blocks)

end initPlaycanvas

/-- C9: in every adapter (three, Babylon, PlayCanvas), `addBlock` at a
coordinate whose key is already registered returns the existing block and
leaves the registry unchanged — no duplicate is created. -/
theorem C9_addBlock_idempotent :
    ∀ (B : Type) (blocks : List (String × B)) (x y z : ℤ) (mk b : B),
      mapGet (blockKey x y z) blocks = some b →
      initThree.addBlock blocks x y z mk = (b, blocks) ∧
      initBabylon.addBlock blocks x y z mk = (b, blocks) ∧
      initPlaycanvas.addBlock blocks x y z mk = (b, blocks) := by
  intro B blocks x y z mk b h
  refine ⟨?_, ?_, ?_⟩ <;>
    simp [initThree.addBlock, initBabylon.addBlock, initPlaycanvas.addBlock, h]

/-- C9, witness: a registry already holding key `1,2,3` with block 5:
`addBlock 1 2 3` returns block 5 and the registry unchanged in all three
adapters. -/
theorem C9_witness :
    initThree.addBlock [(blockKey 1 2 3, 5)] 1 2 3 9 = (5, [(blockKey 1 2 3, 5)]) ∧
    initBabylon.addBlock [(blockKey 1 2 3, 5)] 1 2 3 9 = (5, [(blockKey 1 2 3, 5)]) ∧
    initPlaycanvas.addBlock [(blockKey 1 2 3, 5)] 1 2 3 9 = (5, [(blockKey 1 2 3, 5)]) :=
  C9_addBlock_idempotent ℕ [(blockKey 1 2 3, 5)] 1 2 3 9 5 (by simp [mapGet])

/-- Helper: a key that occurs in no entry is not found. -/
theorem mapGet_eq_none_of_not_mem {B : Type} (k : String) :
    ∀ l : List (String × B), k ∉ l.map Prod.fst → mapGet k l = none := by
  intro l
  induction l with
  | nil => intro _; rfl
  | cons p rest ih =>
    intro h
    simp only [List.map_cons, List.mem_cons] at h
    push_neg at h
    rw [mapGet, if_neg fun hp => h.1 hp.symm]
    exact ih h.2

/-- Helper: on a registry with pairwise distinct keys (the `Map`
invariant), deleting a key makes it unfindable. -/
theorem mapGet_mapDelete_self {B : Type} (k : String) :
    ∀ l : List (String × B), (l.map Prod.fst).Nodup →
      mapGet k (mapDelete k l) = none := by
  intro l
  induction l with
  | nil => intro _; rfl
  | cons p rest ih =>
    intro h
    simp only [List.map_cons, List.nodup_cons] at h
    by_cases hp : p.1 = k
    · rw [mapDelete, if_pos hp]
      exact mapGet_eq_none_of_not_mem k rest (hp ▸ h.1)
    · rw [mapDelete, if_neg hp, mapGet, if_neg hp]
      exact ih h.2

/-- Helper: deleting one key leaves lookups of every other key unchanged. -/
theorem mapGet_mapDelete_ne {B : Type} (k q : String) (hne : q ≠ k) :
    ∀ l : List (String × B), mapGet q (mapDelete k l) = mapGet q l := by
  intro l
  induction l with
  | nil => rfl
  | cons p rest ih =>
    by_cases hp : p.1 = k
    · rw [mapDelete, if_pos hp, mapGet, if_neg ?_]
      intro hq
      exact hne (hq ▸ hp)
    · rw [mapDelete, if_neg hp, mapGet, mapGet, ih]

/-- C10: in every adapter, `removeBlock` returns `true` and removes exactly
the coordinate's key from the registry when a block exists there (the
registry obeying the `Map` invariant of pairwise distinct keys), and
returns `false` leaving the registry unchanged when none does; the three
adapters behave identically on the registry. -/
theorem C10_removeBlock_exact :
    ∀ (B : Type) (blocks : List (String × B)) (x y z : ℤ),
      (blocks.map Prod.fst).Nodup →
      (mapGet (blockKey x y z) blocks = none →
        initThree.removeBlock blocks x y z = (false, blocks) ∧
        initBabylon.removeBlock blocks x y z = (false, blocks) ∧
        initPlaycanvas.removeBlock blocks x y z = (false, blocks)) ∧
      (∀ b : B, mapGet (blockKey x y z) blocks = some b →
        initBabylon.removeBlock blocks x y z = initThree.removeBlock blocks x y z ∧
        initPlaycanvas.removeBlock blocks x y z = initThree.removeBlock blocks x y z ∧
        (initThree.removeBlock blocks x y z).1 = true ∧
        mapGet (blockKey x y z) (initThree.removeBlock blocks x y z).2 = none ∧
        (∀ q : String, q ≠ blockKey x y z →
          mapGet q (initThree.removeBlock blocks x y z).2 = mapGet q blocks)) := by
  intro B blocks x y z hnd
  constructor
  · intro h
    refine ⟨?_, ?_, ?_⟩ <;>
      simp [initThree.removeBlock, initBabylon.removeBlock, initPlaycanvas.removeBlock, h]
  · intro b h
    refine ⟨rfl, rfl, ?_, ?_, ?_⟩
    · simp [initThree.removeBlock, h]
    · simp only [initThree.removeBlock, h]
      exact mapGet_mapDelete_self _ blocks hnd
    · intro q hq
      simp only [initThree.removeBlock, h]
      exact mapGet_mapDelete_ne _ q hq blocks

/-- C10, witness: a two-entry registry with distinct keys `0,0,0` and
`1,0,0`; removing block `(0,0,0)` reports `true`, its key is gone and the
other key's lookup is untouched. -/
theorem C10_witness :
    (initThree.removeBlock [(blockKey 0 0 0, 1), (blockKey 1 0 0, 2)] 0 0 0).1 = true ∧
    mapGet (blockKey 0 0 0)
      (initThree.removeBlock [(blockKey 0 0 0, 1), (blockKey 1 0 0, 2)] 0 0 0).2 = none ∧
    mapGet (blockKey 1 0 0)
      (initThree.removeBlock [(blockKey 0 0 0, 1), (blockKey 1 0 0, 2)] 0 0 0).2 =
      mapGet (blockKey 1 0 0) [(blockKey 0 0 0, 1), (blockKey 1 0 0, 2)] := by
  have h := (C10_removeBlock_exact ℕ [(blockKey 0 0 0, 1), (blockKey 1 0 0, 2)] 0 0 0
    (by decide)).2 1 (by simp [mapGet])
  exact ⟨h.2.2.1, h.2.2.2.1, h.2.2.2.2 (blockKey 1 0 0) (by decide)⟩
